import Mathlib

/-!
# Verification of the MediaSaverBot download pipeline

A shallow embedding of `handle_url` from `MediaSaverBot/bot.py` together with
the data model of `MediaSaverBot/models.py`.  The pipeline is modelled as a
pure function from an environment (the results the external collaborators
would return: URL classification, user lookup, the per-platform downloaders,
the filesystem, the outbound send, the outcome recorder, and the cleanup
syscalls) to the ordered list of observable events of one run: user-facing
replies, downloader invocations, gate checks, the video send, appended
outcome records, and cleanup actions.

Exceptions of the Python source are modelled explicitly: `DownloadError` and
the generic `Exception` become the two constructors of `Exc`, and each
`try/except` block becomes a `match` on an `Option Exc` (or `Except`) value.
-/

set_option maxRecDepth 4000

namespace MediaSaverBot

/-- One persisted outcome row, following the `Download` model of
`models.py`: user id, url, source type, optional size in megabytes,
status string, and optional error message. -/
structure Rec where
  user_id : Nat
  url : String
  source_type : String
  file_size_mb : Option ℚ
  status : String
  error_message : Option String
  deriving DecidableEq, Repr

/-- Observable events of one `handle_url` run, in program order. -/
inductive Event where
  /-- `update.message.reply_text s` -/
  | replyText (s : String)
  /-- one `download_<platform>_video(url)` call -/
  | dlInvoke (tag : String)
  /-- `os.path.exists(video_path)` evaluated to `ok` -/
  | checkExists (p : String) (ok : Bool)
  /-- `os.path.getsize(video_path)` returned `bytes` -/
  | checkSize (p : String) (bytes : Nat)
  /-- `update.message.reply_video(...)` succeeded for file `p` -/
  | sendVideo (p : String)
  /-- `record_download(...)` appended row `r` -/
  | recordAppended (r : Rec)
  /-- `record_download(...)` raised and the exception was caught and logged -/
  | recordError (m : String)
  /-- `processing_msg.delete()` -/
  | deleteMsg
  /-- `processing_msg.edit_text s` -/
  | editMsg (s : String)
  /-- `os.remove p` succeeded -/
  | removeFile (p : String)
  /-- `os.rmdir d` succeeded -/
  | removeDir (d : String)
  /-- an `OSError` from cleanup was caught and logged as a warning -/
  | warnCleanup (m : String)
  /-- an exception escaped `handle_url` to the framework error handler
  (bot.py lines 267-269, registered at line 289), which logs it -/
  | escalated (m : String)
  deriving DecidableEq, Repr

/-- Exceptions of the source: `DownloadError msg` or any other `Exception`. -/
inductive Exc where
  | dl (msg : String)
  | other (msg : String)
  deriving DecidableEq, Repr

/-- The environment of one run: everything the external collaborators and the
operating system would answer during `handle_url`. -/
structure Env where
  /-- the stripped message text, `url` in the source -/
  url : String
  /-- result of `get_url_type(url)` (the classifier lives in
  `url_validator.py`; the pipeline only consumes its result) -/
  urlType : Option String
  /-- result of `get_or_create_user(update)`: raises (`.error`), returns a
  falsy value (`.ok none`), or returns a user with this id (`.ok (some uid)`) -/
  userRes : Except String (Option Nat)
  /-- `download_youtube_video(url)`: raises `DownloadError` or returns an
  optional path -/
  dlYoutube : String → Except String (Option String)
  /-- `download_instagram_video(url)` -/
  dlInstagram : String → Except String (Option String)
  /-- `download_tiktok_video(url)` -/
  dlTiktok : String → Except String (Option String)
  /-- `download_twitter_video(url)` -/
  dlTwitter : String → Except String (Option String)
  /-- `download_facebook_video(url)` -/
  dlFacebook : String → Except String (Option String)
  /-- `os.path.exists` -/
  pathExists : String → Bool
  /-- `os.path.getsize`, in bytes -/
  fileSize : String → Nat
  /-- outcome of `reply_video` (and of opening the file): `.error m` models a
  raised `Exception` with message `m` -/
  sendRes : Except String Unit
  /-- outcome of the processing status reply
  `update.message.reply_text(PROCESSING_MESSAGE)` (line 85): `some m` models a
  raised `Exception`; no `try` encloses that await, so it escapes
  `handle_url` to the framework error handler -/
  procRes : Option String
  /-- outcome of `processing_msg.delete()` (line 188): `some m` models a
  raised `Exception`, caught by the generic `except Exception` handler of
  line 238 -/
  deleteRes : Option String
  /-- behaviour of every `record_download` call in this run: `none` means
  the call appends its row, `some m` means it raises with message `m` -/
  recRes : Option String
  /-- outcome of `os.remove video_path`: `some m` models a raised `OSError` -/
  removeRes : Option String
  /-- `os.path.dirname` -/
  dirname : String → String
  /-- `temp_dir.startswith(tempfile.gettempdir())` -/
  isTmpDir : String → Bool
  /-- outcome of `os.rmdir temp_dir` -/
  rmdirRes : Option String

/-- `user_db` after lines 74-82 of `bot.py`: a raised exception or a falsy
return both leave a null user reference. -/
def resolveUser : Except String (Option Nat) → Option Nat
  | .error _ => none
  | .ok o => o

/-- Modelled from the spec: the fixed rejection message `INVALID_URL_MESSAGE`
from the configuration module, which is absent from the sources. -/
def INVALID_URL_MESSAGE : String := "Please send a valid video URL."

/-- Modelled from the spec: the `PROCESSING_MESSAGE` status text from the
configuration module, which is absent from the sources. -/
def PROCESSING_MESSAGE : String := "Processing your request..."

/-- Modelled from the spec: the generic fallback template `ERROR_MESSAGE`
from the configuration module, which is absent from the sources. -/
def ERROR_MESSAGE : String := "An error occurred while processing your request."

/-- `max_size_mb = 50` of `bot.py` line 119. -/
def max_size_mb : Nat := 50

/-- Bytes per megabyte as used on lines 115 and 120: `1024*1024`. -/
def bytesPerMb : Nat := 1024 * 1024

/-- `file_size_mb = file_size / (1024*1024)` (line 115); exact as a rational
for every realistic size, where the Python float division is also exact up to
`2^53` bytes. -/
def mbOf (bytes : Nat) : ℚ := (bytes : ℚ) / (bytesPerMb : ℚ)

/-- Python `str.lower()`.  Structural (a character-list map) so that it
evaluates by kernel reduction; it agrees with `String.toLower`, and with the
Python method on the ASCII error messages involved. -/
def strLower (s : String) : String := ⟨s.data.map Char.toLower⟩

/-- Is `pat` a contiguous substring of `hay`?  Implements the Python
`pat in hay` test on strings, as a list-of-characters scan. -/
def hasSub : List Char → List Char → Bool
  | [], pat => pat.isEmpty
  | h :: t, pat => pat.isPrefixOf (h :: t) || hasSub t pat

/-- `pat in hay` on strings. -/
def containsSub (hay pat : String) : Bool := hasSub hay.toList pat.toList

/-- Template for private accounts (bot.py line 224). -/
def privateMsg : String :=
  "😔 Sorry, I can\x27t download videos from private accounts. The account needs to be public."

/-- Template for oversized videos (line 226). -/
def tooLargeMsg : String :=
  "😔 Sorry, this video is too large to send via Telegram. Telegram has a 50MB size limit."

/-- Template for posts without video content (line 228). -/
def noVideoMsg : String :=
  "😔 This post doesn\x27t contain a video. I can only download video content."

/-- Template when video information could not be loaded (line 230). -/
def noInfoMsg : String :=
  "😔 I couldn\x27t load information about this video. It might be private or restricted."

/-- Template when no suitable stream exists (line 232). -/
def noStreamMsg : String :=
  "😔 No suitable video format found. The video might be unavailable or protected."

/-- The failure classifier of `handle_url` lines 220-232: an ordered,
case-insensitive keyword scan over the error message, first match wins,
defaulting to `ERROR_MESSAGE`. -/
def user_friendly_message (error_message : String) : String :=
  if containsSub (strLower error_message) "is private" then privateMsg
  else if containsSub (strLower error_message) "is too large" then tooLargeMsg
  else if containsSub (strLower error_message) "does not contain a video" then noVideoMsg
  else if containsSub (strLower error_message) "could not load video information" then noInfoMsg
  else if containsSub (strLower error_message) "no suitable video streams" then noStreamMsg
  else ERROR_MESSAGE

/-- `f"Couldn't download video from {url_type}: {url}"` (line 108). -/
def noDlMsg (tag url : String) : String :=
  "Couldn\x27t download video from " ++ tag ++ ": " ++ url

/-- `"The downloaded file could not be found."` (line 112). -/
def notFoundMsg : String := "The downloaded file could not be found."

/-- `f"The video is too large to send via Telegram (limit: {max_size_mb}MB)."` (line 132). -/
def tooLargeErrMsg : String :=
  "The video is too large to send via Telegram (limit: 50MB)."

/-- `f"Video too large to send (limit: {max_size_mb}MB)"` (line 130). -/
def gateRecMsg : String := "Video too large to send (limit: 50MB)"

/-- `f"Could not send video: {str(e)}"` (lines 181 and 185). -/
def sendFailMsg (m : String) : String := "Could not send video: " ++ m

/-- `f"Unexpected error: {str(e)}"` (line 251). -/
def unexpectedRecMsg (m : String) : String := "Unexpected error: " ++ m

/-- A failed `Download` row as built by the `record_download` call sites. -/
def failRec (uid : Nat) (url tag : String) (mb : Option ℚ) (em : String) : Rec :=
  ⟨uid, url, tag, mb, "failed", some em⟩

/-- A successful `Download` row (lines 159-165). -/
def okRec (uid : Nat) (url tag : String) (mb : ℚ) : Rec :=
  ⟨uid, url, tag, some mb, "success", none⟩

/-- A `record_download` call wrapped in `try/except` (lines 156-167, 172-184,
206-218, 242-254): skipped entirely when the user reference is null, and a
raised persistence exception is caught and logged. -/
def tryRecord (u : Option Nat) (recRes : Option String) (mk : Nat → Rec) : List Event :=
  match u with
  | none => []
  | some uid =>
    match recRes with
    | none => [.recordAppended (mk uid)]
    | some m => [.recordError m]

/-- One taken branch of the dispatch: the downloader is invoked; a raised
`DownloadError` propagates. -/
def invoked (tag : String) (r : Except String (Option String)) :
    List Event × Except Exc (Option String) :=
  match r with
  | .ok vp => ([.dlInvoke tag], .ok vp)
  | .error m => ([.dlInvoke tag], .error (.dl m))

/-- The `if/elif` downloader dispatch of lines 95-104: `video_path` stays
`None` when no branch matches. -/
def dispatch (env : Env) (tag : String) : List Event × Except Exc (Option String) :=
  if tag = "youtube" then invoked tag (env.dlYoutube env.url)
  else if tag = "instagram" then invoked tag (env.dlInstagram env.url)
  else if tag = "tiktok" then invoked tag (env.dlTiktok env.url)
  else if tag = "twitter" then invoked tag (env.dlTwitter env.url)
  else if tag = "facebook" then invoked tag (env.dlFacebook env.url)
  else ([], .ok none)

/-- Best-effort cleanup of lines 190-199: `os.remove`, then `os.rmdir` of the
temp directory when applicable, any `OSError` caught and logged as a warning
(a failed `os.remove` skips the `os.rmdir`, as in the source `try` block). -/
def cleanup (env : Env) (p : String) : List Event :=
  match env.removeRes with
  | some m => [.warnCleanup m]
  | none =>
    .removeFile p ::
      (if env.isTmpDir (env.dirname p) then
        match env.rmdirRes with
        | none => [.removeDir (env.dirname p)]
        | some m => [.warnCleanup m]
      else [])

/-- Lines 110-199: gate checks, the oversize branch with its unprotected
`record_download` (lines 122-131), the guarded send block with its own
success/failure recording, the `processing_msg.delete()` of line 188 — whose
raise, still inside the outer `try`, escapes as a generic exception to the
`except Exception` handler and skips cleanup — and cleanup.  Returns the
events of this region plus the exception escaping it, if any. -/
def gateAndSend (env : Env) (u : Option Nat) (tag : String) (p : String) :
    List Event × Option Exc :=
  match env.pathExists p with
  | false => ([.checkExists p false], some (.dl notFoundMsg))
  | true =>
    let sz := env.fileSize p
    let evs := [Event.checkExists p true, Event.checkSize p sz]
    if max_size_mb * 1024 * 1024 < sz then
      match u with
      | none => (evs, some (.dl tooLargeErrMsg))
      | some uid =>
        match env.recRes with
        | none =>
          (evs ++ [.recordAppended (failRec uid env.url tag (some (mbOf sz)) gateRecMsg)],
           some (.dl tooLargeErrMsg))
        | some m => (evs, some (.other m))
    else
      match env.sendRes with
      | .error m =>
        (evs ++ tryRecord u env.recRes (fun uid => failRec uid env.url tag (some (mbOf sz)) (sendFailMsg m)),
         some (.dl (sendFailMsg m)))
      | .ok _ =>
        match env.deleteRes with
        | some m =>
          (evs ++ [.sendVideo p]
               ++ tryRecord u env.recRes (fun uid => okRec uid env.url tag (mbOf sz)),
           some (.other m))
        | none =>
          (evs ++ [.sendVideo p]
               ++ tryRecord u env.recRes (fun uid => okRec uid env.url tag (mbOf sz))
               ++ [.deleteMsg]
               ++ cleanup env p,
           none)

/-- The body of the outer `try` (lines 87-199): dispatch, the
`video_path is None` check (line 107), then `gateAndSend`. -/
def body (env : Env) (u : Option Nat) (tag : String) : List Event × Option Exc :=
  match dispatch env tag with
  | (evs, .error e) => (evs, some e)
  | (evs, .ok none) => (evs, some (.dl (noDlMsg tag env.url)))
  | (evs, .ok (some p)) =>
    match gateAndSend env u tag p with
    | (gevs, exc) => (evs ++ gevs, exc)

/-- `f"{user_friendly_message}\n\nDetails: {error_message}"` (line 235). -/
def detailsReply (em : String) : String :=
  user_friendly_message em ++ "\n\nDetails: " ++ em

/-- The fixed reply of the generic handler (line 256). -/
def unexpectedReply : String :=
  ERROR_MESSAGE ++ "\n\nAn unexpected error occurred. Please try again later."

/-- The two `except` clauses of lines 201-256: the `DownloadError` handler
records (guarded) with a null size and edits in the classified message plus
raw details; the generic handler records (guarded) with an `Unexpected
error:` prefix and edits in the fixed apology.  `source_type` is `tag` in
both: line 248 falls back to `'unknown'` only for a falsy `url_type`, which
cannot reach the handlers (line 69 already returned). -/
def handleExc (env : Env) (u : Option Nat) (tag : String) : Option Exc → List Event
  | none => []
  | some (.dl em) =>
    tryRecord u env.recRes (fun uid => failRec uid env.url tag none em)
      ++ [.editMsg (detailsReply em)]
  | some (.other em) =>
    tryRecord u env.recRes (fun uid => failRec uid env.url tag none (unexpectedRecMsg em))
      ++ [.editMsg unexpectedReply]

/-- The run from the processing reply onward (lines 85-256), given the
resolved user reference and the truthy classification tag.  The processing
reply of line 85 precedes the outer `try` and is enclosed by no handler, so
its raise escapes `handle_url` with nothing sent and nothing recorded. -/
def handleUrlFrom (env : Env) (u : Option Nat) (tag : String) : List Event :=
  match env.procRes with
  | some m => [.escalated m]
  | none =>
    match body env u tag with
    | (evs, exc) =>
      Event.replyText PROCESSING_MESSAGE :: (evs ++ handleExc env u tag exc)

/-- `handle_url` of `bot.py` lines 61-256 as the event trace of one run.
`if not url_type` (line 69) rejects both a `None` and an empty
classification result. -/
def handle_url (env : Env) : List Event :=
  match env.urlType with
  | none => [.replyText INVALID_URL_MESSAGE]
  | some tag =>
    if tag = "" then [.replyText INVALID_URL_MESSAGE]
    else handleUrlFrom env (resolveUser env.userRes) tag

/-- The outcome rows actually appended during a trace. -/
def recordsOf (t : List Event) : List Rec :=
  t.filterMap fun e =>
    match e with
    | .recordAppended r => some r
    | _ => none

/-- The cleanup-related events of a trace. -/
def cleanupEvsOf (t : List Event) : List Event :=
  t.filter fun e =>
    match e with
    | .removeFile _ => true
    | .removeDir _ => true
    | .warnCleanup _ => true
    | _ => false

/-- The condition under which a run that got past the processing reply, with
a resolved user and a working recorder, writes two outcome rows: the
downloaded file exists and is either oversized, fails to send, or is sent
successfully but the `processing_msg.delete()` of line 188 then raises — in
the first two cases the specific in-branch row is followed by the generic row
of the `DownloadError` handler, in the third the success row is followed by
the generic row of the `except Exception` handler. -/
def doubleRecorded (env : Env) (tag : String) : Prop :=
  ∃ p, (dispatch env tag).2 = .ok (some p) ∧ env.pathExists p = true ∧
    (max_size_mb * 1024 * 1024 < env.fileSize p ∨ (∃ m, env.sendRes = .error m) ∨
      (env.sendRes = .ok () ∧ ∃ m, env.deleteRes = some m))

/-- The condition under which a run reaches the cleanup block of lines
190-199: the processing reply succeeded, the dispatch produced a file that
exists and fits under the ceiling, the send succeeded, and the
processing-message delete succeeded. -/
def cleanupRun (env : Env) (tag : String) : Prop :=
  env.procRes = none ∧
  ∃ p, (dispatch env tag).2 = .ok (some p) ∧ env.pathExists p = true ∧
    ¬ max_size_mb * 1024 * 1024 < env.fileSize p ∧
    env.sendRes = .ok () ∧ env.deleteRes = none

/-- A baseline environment for concrete runs: a recognized tiktok URL, a
resolved user, a 3 MiB download that exists, a working send, recorder and
cleanup. -/
def envOk : Env where
  url := "https://www.tiktok.com/@user/video/123"
  urlType := some "tiktok"
  userRes := .ok (some 7)
  dlYoutube := fun _ => .ok none
  dlInstagram := fun _ => .ok none
  dlTiktok := fun _ => .ok (some "/tmp/dl/v.mp4")
  dlTwitter := fun _ => .ok none
  dlFacebook := fun _ => .ok none
  pathExists := fun _ => true
  fileSize := fun _ => 3 * 1024 * 1024
  sendRes := .ok ()
  procRes := none
  deleteRes := none
  recRes := none
  removeRes := none
  dirname := fun _ => "/tmp/dl"
  isTmpDir := fun _ => true
  rmdirRes := none

/-- `envOk` with a 51 MiB download: a gate failure. -/
def envGateTwice : Env := { envOk with fileSize := fun _ => 51 * 1024 * 1024 }

/-- `envOk` with a 51 MiB download, for the cleanup analysis. -/
def envNoCleanup : Env := { envOk with fileSize := fun _ => 51 * 1024 * 1024 }

/-- `envOk` with a download of exactly 50 MiB. -/
def envExactly50 : Env := { envOk with fileSize := fun _ => 50 * 1024 * 1024 }

/-- `envOk` with a 51 MiB download and a recorder that raises. -/
def envRecorderRaises : Env :=
  { envOk with fileSize := fun _ => 51 * 1024 * 1024, recRes := some "db write failed" }

/-- `envOk` with a 51 MiB download and a working recorder, for contrast. -/
def envRecorderOk : Env := { envOk with fileSize := fun _ => 51 * 1024 * 1024 }

/-- `envOk` with a 51 MiB download and a recorder that raises, driving the
run into the generic handler. -/
def envUnexpected : Env :=
  { envOk with fileSize := fun _ => 51 * 1024 * 1024, recRes := some "db write failed" }

/-- `envOk` whose tiktok downloader fails with a private-account reason. -/
def envPrivate : Env :=
  { envOk with dlTiktok := fun _ => .error "This account is private" }

/-- `envOk` with an unrecognized URL. -/
def envNoUrl : Env := { envOk with urlType := none }

/-- `envOk` whose user lookup raises. -/
def envUserFail : Env := { envOk with userRes := .error "db down" }

/-- `envOk` classified to a platform outside the dispatched five. -/
def envVimeo : Env := { envOk with urlType := some "vimeo" }

/-! ## Basic lemmas about the stages -/

@[simp] lemma recordsOf_nil : recordsOf [] = [] := rfl

@[simp] lemma recordsOf_cons_replyText (s : String) (t : List Event) :
    recordsOf (.replyText s :: t) = recordsOf t := rfl

@[simp] lemma recordsOf_cons_dlInvoke (s : String) (t : List Event) :
    recordsOf (.dlInvoke s :: t) = recordsOf t := rfl

@[simp] lemma recordsOf_cons_checkExists (p : String) (b : Bool) (t : List Event) :
    recordsOf (.checkExists p b :: t) = recordsOf t := rfl

@[simp] lemma recordsOf_cons_checkSize (p : String) (n : Nat) (t : List Event) :
    recordsOf (.checkSize p n :: t) = recordsOf t := rfl

@[simp] lemma recordsOf_cons_sendVideo (p : String) (t : List Event) :
    recordsOf (.sendVideo p :: t) = recordsOf t := rfl

@[simp] lemma recordsOf_cons_recordAppended (r : Rec) (t : List Event) :
    recordsOf (.recordAppended r :: t) = r :: recordsOf t := rfl

@[simp] lemma recordsOf_cons_recordError (m : String) (t : List Event) :
    recordsOf (.recordError m :: t) = recordsOf t := rfl

@[simp] lemma recordsOf_cons_deleteMsg (t : List Event) :
    recordsOf (.deleteMsg :: t) = recordsOf t := rfl

@[simp] lemma recordsOf_cons_editMsg (s : String) (t : List Event) :
    recordsOf (.editMsg s :: t) = recordsOf t := rfl

@[simp] lemma recordsOf_cons_removeFile (p : String) (t : List Event) :
    recordsOf (.removeFile p :: t) = recordsOf t := rfl

@[simp] lemma recordsOf_cons_removeDir (p : String) (t : List Event) :
    recordsOf (.removeDir p :: t) = recordsOf t := rfl

@[simp] lemma recordsOf_cons_warnCleanup (m : String) (t : List Event) :
    recordsOf (.warnCleanup m :: t) = recordsOf t := rfl

@[simp] lemma recordsOf_cons_escalated (m : String) (t : List Event) :
    recordsOf (.escalated m :: t) = recordsOf t := rfl

@[simp] lemma cleanupEvsOf_nil : cleanupEvsOf [] = [] := rfl

@[simp] lemma cleanupEvsOf_cons_replyText (s : String) (t : List Event) :
    cleanupEvsOf (.replyText s :: t) = cleanupEvsOf t := rfl

@[simp] lemma cleanupEvsOf_cons_dlInvoke (s : String) (t : List Event) :
    cleanupEvsOf (.dlInvoke s :: t) = cleanupEvsOf t := rfl

@[simp] lemma cleanupEvsOf_cons_checkExists (p : String) (b : Bool) (t : List Event) :
    cleanupEvsOf (.checkExists p b :: t) = cleanupEvsOf t := rfl

@[simp] lemma cleanupEvsOf_cons_checkSize (p : String) (n : Nat) (t : List Event) :
    cleanupEvsOf (.checkSize p n :: t) = cleanupEvsOf t := rfl

@[simp] lemma cleanupEvsOf_cons_sendVideo (p : String) (t : List Event) :
    cleanupEvsOf (.sendVideo p :: t) = cleanupEvsOf t := rfl

@[simp] lemma cleanupEvsOf_cons_recordAppended (r : Rec) (t : List Event) :
    cleanupEvsOf (.recordAppended r :: t) = cleanupEvsOf t := rfl

@[simp] lemma cleanupEvsOf_cons_recordError (m : String) (t : List Event) :
    cleanupEvsOf (.recordError m :: t) = cleanupEvsOf t := rfl

@[simp] lemma cleanupEvsOf_cons_deleteMsg (t : List Event) :
    cleanupEvsOf (.deleteMsg :: t) = cleanupEvsOf t := rfl

@[simp] lemma cleanupEvsOf_cons_editMsg (s : String) (t : List Event) :
    cleanupEvsOf (.editMsg s :: t) = cleanupEvsOf t := rfl

@[simp] lemma cleanupEvsOf_cons_escalated (m : String) (t : List Event) :
    cleanupEvsOf (.escalated m :: t) = cleanupEvsOf t := rfl

@[simp] lemma cleanupEvsOf_cons_removeFile (p : String) (t : List Event) :
    cleanupEvsOf (.removeFile p :: t) = .removeFile p :: cleanupEvsOf t := rfl

@[simp] lemma cleanupEvsOf_cons_removeDir (p : String) (t : List Event) :
    cleanupEvsOf (.removeDir p :: t) = .removeDir p :: cleanupEvsOf t := rfl

@[simp] lemma cleanupEvsOf_cons_warnCleanup (m : String) (t : List Event) :
    cleanupEvsOf (.warnCleanup m :: t) = .warnCleanup m :: cleanupEvsOf t := rfl

lemma cleanupEvsOf_append (a b : List Event) :
    cleanupEvsOf (a ++ b) = cleanupEvsOf a ++ cleanupEvsOf b := by
  simp [cleanupEvsOf, List.filter_append]

lemma invoked_fst (tag : String) (r : Except String (Option String)) :
    (invoked tag r).1 = [Event.dlInvoke tag] := by
  cases r <;> rfl

lemma dispatch_fst (env : Env) (tag : String) :
    (dispatch env tag).1 = [] ∨ (dispatch env tag).1 = [Event.dlInvoke tag] := by
  unfold dispatch
  split_ifs <;> simp [invoked_fst]

lemma not_send_dispatch (env : Env) (tag q : String) :
    Event.sendVideo q ∉ (dispatch env tag).1 := by
  rcases dispatch_fst env tag with h | h <;> rw [h] <;> simp

lemma recordsOf_append (a b : List Event) :
    recordsOf (a ++ b) = recordsOf a ++ recordsOf b := by
  simp [recordsOf, List.filterMap_append]

lemma recordsOf_dispatch (env : Env) (tag : String) :
    recordsOf (dispatch env tag).1 = [] := by
  rcases dispatch_fst env tag with h | h <;> rw [h] <;> rfl

lemma not_send_tryRecord (q : String) (u : Option Nat) (r : Option String) (mk : Nat → Rec) :
    Event.sendVideo q ∉ tryRecord u r mk := by
  cases u with
  | none => simp [tryRecord]
  | some uid => cases r <;> simp [tryRecord]

lemma recordsOf_tryRecord_none (r : Option String) (mk : Nat → Rec) :
    recordsOf (tryRecord none r mk) = [] := rfl

lemma recordsOf_tryRecord_ok (uid : Nat) (mk : Nat → Rec) :
    recordsOf (tryRecord (some uid) none mk) = [mk uid] := rfl

lemma not_send_cleanup (env : Env) (p q : String) :
    Event.sendVideo q ∉ cleanup env p := by
  unfold cleanup
  cases env.removeRes with
  | some m => simp
  | none =>
    by_cases h : env.isTmpDir (env.dirname p)
    · rw [if_pos h]; cases env.rmdirRes <;> simp
    · rw [if_neg h]; simp

lemma recordsOf_cleanup (env : Env) (p : String) :
    recordsOf (cleanup env p) = [] := by
  unfold cleanup
  cases env.removeRes with
  | some m => rfl
  | none =>
    by_cases h : env.isTmpDir (env.dirname p)
    · rw [if_pos h]; cases env.rmdirRes <;> rfl
    · rw [if_neg h]; rfl

lemma cleanup_ne_nil (env : Env) (p : String) : cleanup env p ≠ [] := by
  unfold cleanup
  cases env.removeRes with
  | some m => simp
  | none =>
    by_cases h : env.isTmpDir (env.dirname p)
    · rw [if_pos h]; cases env.rmdirRes <;> simp
    · rw [if_neg h]; simp

lemma not_send_handleExc (env : Env) (u : Option Nat) (tag q : String) (exc : Option Exc) :
    Event.sendVideo q ∉ handleExc env u tag exc := by
  cases exc with
  | none => simp [handleExc]
  | some e => cases e <;> simp [handleExc, not_send_tryRecord]

/-! ## Path equations -/

lemma handle_url_some (env : Env) (tag : String)
    (hty : env.urlType = some tag) (h0 : tag ≠ "") :
    handle_url env = handleUrlFrom env (resolveUser env.userRes) tag := by
  unfold handle_url
  rw [hty]
  exact if_neg h0

lemma handleUrlFrom_eq (env : Env) (u : Option Nat) (tag : String)
    (evs : List Event) (exc : Option Exc)
    (hp : env.procRes = none) (hb : body env u tag = (evs, exc)) :
    handleUrlFrom env u tag =
      Event.replyText PROCESSING_MESSAGE :: (evs ++ handleExc env u tag exc) := by
  unfold handleUrlFrom
  rw [hp, hb]

lemma handleUrlFrom_escalated (env : Env) (u : Option Nat) (tag m : String)
    (hp : env.procRes = some m) :
    handleUrlFrom env u tag = [.escalated m] := by
  unfold handleUrlFrom
  rw [hp]

lemma body_eq_err (env : Env) (u : Option Nat) (tag : String)
    (evs0 : List Event) (e : Exc) (hd : dispatch env tag = (evs0, .error e)) :
    body env u tag = (evs0, some e) := by
  unfold body
  rw [hd]

lemma body_eq_none (env : Env) (u : Option Nat) (tag : String)
    (evs0 : List Event) (hd : dispatch env tag = (evs0, .ok none)) :
    body env u tag = (evs0, some (.dl (noDlMsg tag env.url))) := by
  unfold body
  rw [hd]

lemma body_eq_some (env : Env) (u : Option Nat) (tag : String)
    (evs0 : List Event) (p : String) (hd : dispatch env tag = (evs0, .ok (some p))) :
    body env u tag = (evs0 ++ (gateAndSend env u tag p).1, (gateAndSend env u tag p).2) := by
  unfold body
  rw [hd]

lemma dispatch_unknown (env : Env) (tag : String)
    (hy : tag ≠ "youtube") (hi : tag ≠ "instagram") (ht : tag ≠ "tiktok")
    (hw : tag ≠ "twitter") (hf : tag ≠ "facebook") :
    dispatch env tag = ([], .ok none) := by
  unfold dispatch
  rw [if_neg hy, if_neg hi, if_neg ht, if_neg hw, if_neg hf]

lemma gateAndSend_not_found (env : Env) (u : Option Nat) (tag p : String)
    (h : env.pathExists p = false) :
    gateAndSend env u tag p = ([.checkExists p false], some (.dl notFoundMsg)) := by
  unfold gateAndSend
  rw [h]

lemma gateAndSend_oversize_none (env : Env) (tag p : String)
    (hex : env.pathExists p = true)
    (hsz : max_size_mb * 1024 * 1024 < env.fileSize p) :
    gateAndSend env none tag p =
      ([.checkExists p true, .checkSize p (env.fileSize p)], some (.dl tooLargeErrMsg)) := by
  unfold gateAndSend
  rw [hex, if_pos hsz]

lemma gateAndSend_oversize_rec (env : Env) (tag p : String) (uid : Nat)
    (hex : env.pathExists p = true)
    (hsz : max_size_mb * 1024 * 1024 < env.fileSize p)
    (hr : env.recRes = none) :
    gateAndSend env (some uid) tag p =
      ([.checkExists p true, .checkSize p (env.fileSize p),
        .recordAppended (failRec uid env.url tag (some (mbOf (env.fileSize p))) gateRecMsg)],
       some (.dl tooLargeErrMsg)) := by
  unfold gateAndSend
  rw [hex, if_pos hsz, hr]
  rfl

lemma gateAndSend_oversize_recfail (env : Env) (tag p : String) (uid : Nat) (m : String)
    (hex : env.pathExists p = true)
    (hsz : max_size_mb * 1024 * 1024 < env.fileSize p)
    (hr : env.recRes = some m) :
    gateAndSend env (some uid) tag p =
      ([.checkExists p true, .checkSize p (env.fileSize p)], some (.other m)) := by
  unfold gateAndSend
  rw [hex, if_pos hsz, hr]

lemma gateAndSend_sendfail (env : Env) (u : Option Nat) (tag p m : String)
    (hex : env.pathExists p = true)
    (hsz : ¬ max_size_mb * 1024 * 1024 < env.fileSize p)
    (hs : env.sendRes = .error m) :
    gateAndSend env u tag p =
      ([Event.checkExists p true, Event.checkSize p (env.fileSize p)]
         ++ tryRecord u env.recRes
              (fun uid => failRec uid env.url tag (some (mbOf (env.fileSize p))) (sendFailMsg m)),
       some (.dl (sendFailMsg m))) := by
  unfold gateAndSend
  rw [hex, if_neg hsz, hs]

lemma gateAndSend_success (env : Env) (u : Option Nat) (tag p : String)
    (hex : env.pathExists p = true)
    (hsz : ¬ max_size_mb * 1024 * 1024 < env.fileSize p)
    (hs : env.sendRes = .ok ()) (hdel : env.deleteRes = none) :
    gateAndSend env u tag p =
      ([Event.checkExists p true, Event.checkSize p (env.fileSize p), Event.sendVideo p]
         ++ tryRecord u env.recRes (fun uid => okRec uid env.url tag (mbOf (env.fileSize p)))
         ++ [.deleteMsg]
         ++ cleanup env p,
       none) := by
  unfold gateAndSend
  rw [hex, if_neg hsz, hs, hdel]
  rfl

lemma gateAndSend_delete_fail (env : Env) (u : Option Nat) (tag p m : String)
    (hex : env.pathExists p = true)
    (hsz : ¬ max_size_mb * 1024 * 1024 < env.fileSize p)
    (hs : env.sendRes = .ok ()) (hdel : env.deleteRes = some m) :
    gateAndSend env u tag p =
      ([Event.checkExists p true, Event.checkSize p (env.fileSize p), Event.sendVideo p]
         ++ tryRecord u env.recRes (fun uid => okRec uid env.url tag (mbOf (env.fileSize p))),
       some (.other m)) := by
  unfold gateAndSend
  rw [hex, if_neg hsz, hs, hdel]
  rfl

@[simp] lemma resolveUser_ok (o : Option Nat) : resolveUser (.ok o) = o := rfl

@[simp] lemma resolveUser_err (m : String) : resolveUser (.error m) = none := rfl

/-- A send event can only arise from the success branch of `gateAndSend`:
the file exists, fits under the ceiling, and the send succeeded. -/
lemma send_in_gate (env : Env) (u : Option Nat) (tag p q : String)
    (h : Event.sendVideo q ∈ (gateAndSend env u tag p).1) :
    q = p ∧ env.pathExists p = true ∧
    ¬ max_size_mb * 1024 * 1024 < env.fileSize p ∧ env.sendRes = .ok () := by
  cases hex : env.pathExists p with
  | false =>
    rw [gateAndSend_not_found env u tag p hex] at h
    simp at h
  | true =>
    by_cases hsz : max_size_mb * 1024 * 1024 < env.fileSize p
    · cases u with
      | none =>
        rw [gateAndSend_oversize_none env tag p hex hsz] at h
        simp at h
      | some uid =>
        cases hr : env.recRes with
        | none =>
          rw [gateAndSend_oversize_rec env tag p uid hex hsz hr] at h
          simp at h
        | some m =>
          rw [gateAndSend_oversize_recfail env tag p uid m hex hsz hr] at h
          simp at h
    · cases hs : env.sendRes with
      | error m =>
        rw [gateAndSend_sendfail env u tag p m hex hsz hs] at h
        simp [not_send_tryRecord] at h
      | ok uu =>
        cases uu
        cases hdel : env.deleteRes with
        | none =>
          rw [gateAndSend_success env u tag p hex hsz hs hdel] at h
          simp [not_send_tryRecord, not_send_cleanup] at h
          exact ⟨h, rfl, hsz, rfl⟩
        | some m =>
          rw [gateAndSend_delete_fail env u tag p m hex hsz hs hdel] at h
          simp [not_send_tryRecord] at h
          exact ⟨h, rfl, hsz, rfl⟩

lemma cleanupEvsOf_dispatch (env : Env) (tag : String) :
    cleanupEvsOf (dispatch env tag).1 = [] := by
  rcases dispatch_fst env tag with h | h <;> rw [h] <;> rfl

lemma cleanupEvsOf_tryRecord (u : Option Nat) (r : Option String) (mk : Nat → Rec) :
    cleanupEvsOf (tryRecord u r mk) = [] := by
  cases u with
  | none => rfl
  | some uid => cases r <;> rfl

lemma cleanupEvsOf_handleExc (env : Env) (u : Option Nat) (tag : String) (exc : Option Exc) :
    cleanupEvsOf (handleExc env u tag exc) = [] := by
  cases exc with
  | none => rfl
  | some e =>
    cases e <;> simp [handleExc, cleanupEvsOf_append, cleanupEvsOf_tryRecord]

lemma cleanupEvsOf_cleanup (env : Env) (p : String) :
    cleanupEvsOf (cleanup env p) = cleanup env p := by
  unfold cleanup
  cases env.removeRes with
  | some m => rfl
  | none =>
    by_cases h : env.isTmpDir (env.dirname p)
    · rw [if_pos h]; cases env.rmdirRes <;> rfl
    · rw [if_neg h]; rfl

/-! ## Record counting -/

lemma records_null_user (env : Env) (tag : String) :
    recordsOf (handleUrlFrom env none tag) = [] := by
  cases hp : env.procRes with
  | some m =>
    rw [handleUrlFrom_escalated env none tag m hp]
    rfl
  | none =>
    rcases hd : dispatch env tag with ⟨evs0, r⟩
    have R0 : recordsOf evs0 = [] := by
      have h := recordsOf_dispatch env tag
      rwa [hd] at h
    cases r with
    | error e =>
      rw [handleUrlFrom_eq env none tag evs0 (some e) hp (body_eq_err env none tag evs0 e hd)]
      cases e <;> simp [handleExc, tryRecord, recordsOf_append, R0]
    | ok vp =>
      cases vp with
      | none =>
        rw [handleUrlFrom_eq env none tag evs0 _ hp (body_eq_none env none tag evs0 hd)]
        simp [handleExc, tryRecord, recordsOf_append, R0]
      | some p =>
        have hb := body_eq_some env none tag evs0 p hd
        cases hex : env.pathExists p with
        | false =>
          rw [gateAndSend_not_found env none tag p hex] at hb
          simp only at hb
          rw [handleUrlFrom_eq env none tag _ _ hp hb]
          simp [handleExc, tryRecord, recordsOf_append, R0]
        | true =>
          by_cases hsz : max_size_mb * 1024 * 1024 < env.fileSize p
          · rw [gateAndSend_oversize_none env tag p hex hsz] at hb
            simp only at hb
            rw [handleUrlFrom_eq env none tag _ _ hp hb]
            simp [handleExc, tryRecord, recordsOf_append, R0]
          · cases hs : env.sendRes with
            | error m =>
              rw [gateAndSend_sendfail env none tag p m hex hsz hs] at hb
              simp only at hb
              rw [handleUrlFrom_eq env none tag _ _ hp hb]
              simp [handleExc, tryRecord, recordsOf_append, R0]
            | ok uu =>
              cases uu
              cases hdel : env.deleteRes with
              | none =>
                rw [gateAndSend_success env none tag p hex hsz hs hdel] at hb
                simp only at hb
                rw [handleUrlFrom_eq env none tag _ _ hp hb]
                simp [handleExc, tryRecord, recordsOf_append, recordsOf_cleanup, R0]
              | some m =>
                rw [gateAndSend_delete_fail env none tag p m hex hsz hs hdel] at hb
                simp only at hb
                rw [handleUrlFrom_eq env none tag _ _ hp hb]
                simp [handleExc, tryRecord, recordsOf_append, R0]

lemma records_user (env : Env) (tag : String) (uid : Nat)
    (hp : env.procRes = none) (hr : env.recRes = none) :
    ((recordsOf (handleUrlFrom env (some uid) tag)).length = 1 ∨
     (recordsOf (handleUrlFrom env (some uid) tag)).length = 2) ∧
    ((recordsOf (handleUrlFrom env (some uid) tag)).length = 2 ↔ doubleRecorded env tag) := by
  rcases hd : dispatch env tag with ⟨evs0, r⟩
  have R0 : recordsOf evs0 = [] := by
    have h := recordsOf_dispatch env tag
    rwa [hd] at h
  have hdsnd : (dispatch env tag).2 = r := by rw [hd]
  cases r with
  | error e =>
    have hlen : recordsOf (handleUrlFrom env (some uid) tag) =
        (match e with
         | .dl em => [failRec uid env.url tag none em]
         | .other em => [failRec uid env.url tag none (unexpectedRecMsg em)]) := by
      rw [handleUrlFrom_eq env (some uid) tag evs0 (some e) hp (body_eq_err env (some uid) tag evs0 e hd)]
      cases e <;> simp [handleExc, tryRecord, hr, recordsOf_append, R0]
    have hnd : ¬ doubleRecorded env tag := by
      rintro ⟨q, hq, -, -⟩
      rw [hdsnd] at hq
      exact absurd hq (by simp)
    cases e <;> simp [hlen, hnd]
  | ok vp =>
    cases vp with
    | none =>
      have hlen : recordsOf (handleUrlFrom env (some uid) tag) =
          [failRec uid env.url tag none (noDlMsg tag env.url)] := by
        rw [handleUrlFrom_eq env (some uid) tag evs0 _ hp (body_eq_none env (some uid) tag evs0 hd)]
        simp [handleExc, tryRecord, hr, recordsOf_append, R0]
      have hnd : ¬ doubleRecorded env tag := by
        rintro ⟨q, hq, -, -⟩
        rw [hdsnd] at hq
        exact absurd hq (by simp)
      simp [hlen, hnd]
    | some p =>
      have hb := body_eq_some env (some uid) tag evs0 p hd
      cases hex : env.pathExists p with
      | false =>
        have hlen : recordsOf (handleUrlFrom env (some uid) tag) =
            [failRec uid env.url tag none notFoundMsg] := by
          rw [gateAndSend_not_found env (some uid) tag p hex] at hb
          simp only at hb
          rw [handleUrlFrom_eq env (some uid) tag _ _ hp hb]
          simp [handleExc, tryRecord, hr, recordsOf_append, R0]
        have hnd : ¬ doubleRecorded env tag := by
          rintro ⟨q, hq, hexq, -⟩
          rw [hdsnd] at hq
          have : q = p := by simpa using hq.symm
          rw [this] at hexq
          rw [hexq] at hex
          exact absurd hex (by simp)
        simp [hlen, hnd]
      | true =>
        by_cases hsz : max_size_mb * 1024 * 1024 < env.fileSize p
        · have hlen : recordsOf (handleUrlFrom env (some uid) tag) =
              [failRec uid env.url tag (some (mbOf (env.fileSize p))) gateRecMsg,
               failRec uid env.url tag none tooLargeErrMsg] := by
            rw [gateAndSend_oversize_rec env tag p uid hex hsz hr] at hb
            simp only at hb
            rw [handleUrlFrom_eq env (some uid) tag _ _ hp hb]
            simp [handleExc, tryRecord, hr, recordsOf_append, R0]
          have hdr : doubleRecorded env tag := ⟨p, by rw [hdsnd], hex, Or.inl hsz⟩
          simp [hlen, hdr]
        · cases hs : env.sendRes with
          | error m =>
            have hlen : recordsOf (handleUrlFrom env (some uid) tag) =
                [failRec uid env.url tag (some (mbOf (env.fileSize p))) (sendFailMsg m),
                 failRec uid env.url tag none (sendFailMsg m)] := by
              rw [gateAndSend_sendfail env (some uid) tag p m hex hsz hs] at hb
              simp only at hb
              rw [handleUrlFrom_eq env (some uid) tag _ _ hp hb]
              simp [handleExc, tryRecord, hr, recordsOf_append, R0]
            have hdr : doubleRecorded env tag :=
              ⟨p, by rw [hdsnd], hex, Or.inr (Or.inl ⟨m, hs⟩)⟩
            simp [hlen, hdr]
          | ok uu =>
            cases uu
            cases hdel : env.deleteRes with
            | none =>
              have hlen : recordsOf (handleUrlFrom env (some uid) tag) =
                  [okRec uid env.url tag (mbOf (env.fileSize p))] := by
                rw [gateAndSend_success env (some uid) tag p hex hsz hs hdel] at hb
                simp only at hb
                rw [handleUrlFrom_eq env (some uid) tag _ _ hp hb]
                simp [handleExc, tryRecord, hr, recordsOf_append, recordsOf_cleanup, R0]
              have hnd : ¬ doubleRecorded env tag := by
                rintro ⟨q, hq, -, hc⟩
                rw [hdsnd] at hq
                have hqp : q = p := by simpa using hq.symm
                rcases hc with hlt | ⟨m, hm⟩ | ⟨-, m, hm⟩
                · rw [hqp] at hlt
                  exact hsz hlt
                · rw [hs] at hm
                  exact absurd hm (by simp)
                · rw [hdel] at hm
                  exact absurd hm (by simp)
              simp [hlen, hnd]
            | some m =>
              have hlen : recordsOf (handleUrlFrom env (some uid) tag) =
                  [okRec uid env.url tag (mbOf (env.fileSize p)),
                   failRec uid env.url tag none (unexpectedRecMsg m)] := by
                rw [gateAndSend_delete_fail env (some uid) tag p m hex hsz hs hdel] at hb
                simp only at hb
                rw [handleUrlFrom_eq env (some uid) tag _ _ hp hb]
                simp [handleExc, tryRecord, hr, recordsOf_append, R0]
              have hdr : doubleRecorded env tag :=
                ⟨p, by rw [hdsnd], hex, Or.inr (Or.inr ⟨hs, m, hdel⟩)⟩
              simp [hlen, hdr]

/-- Cleanup events occur in a run precisely when the run reaches the cleanup
block: the processing reply, download, gate, send, and processing-message
delete all succeeded. -/
lemma cleanup_events_iff (env : Env) (u : Option Nat) (tag : String) :
    cleanupEvsOf (handleUrlFrom env u tag) ≠ [] ↔ cleanupRun env tag := by
  cases hp : env.procRes with
  | some m =>
    rw [handleUrlFrom_escalated env u tag m hp]
    constructor
    · intro h
      exact absurd rfl h
    · rintro ⟨hpn, -⟩
      rw [hp] at hpn
      exact absurd hpn (by simp)
  | none =>
    rcases hd : dispatch env tag with ⟨evs0, r⟩
    have hdsnd : (dispatch env tag).2 = r := by rw [hd]
    have C0 : cleanupEvsOf evs0 = [] := by
      have h := cleanupEvsOf_dispatch env tag
      rwa [hd] at h
    cases r with
    | error e =>
      have hnone : cleanupEvsOf (handleUrlFrom env u tag) = [] := by
        rw [handleUrlFrom_eq env u tag evs0 (some e) hp (body_eq_err env u tag evs0 e hd)]
        simp [cleanupEvsOf_append, C0, cleanupEvsOf_handleExc]
      rw [hnone]
      constructor
      · intro h
        exact absurd rfl h
      · rintro ⟨-, q, hq, -, -, -, -⟩
        rw [hdsnd] at hq
        exact absurd hq (by simp)
    | ok vp =>
      cases vp with
      | none =>
        have hnone : cleanupEvsOf (handleUrlFrom env u tag) = [] := by
          rw [handleUrlFrom_eq env u tag evs0 _ hp (body_eq_none env u tag evs0 hd)]
          simp [cleanupEvsOf_append, C0, cleanupEvsOf_handleExc]
        rw [hnone]
        constructor
        · intro h
          exact absurd rfl h
        · rintro ⟨-, q, hq, -, -, -, -⟩
          rw [hdsnd] at hq
          exact absurd hq (by simp)
      | some p =>
        have hb := body_eq_some env u tag evs0 p hd
        cases hex : env.pathExists p with
        | false =>
          have hnone : cleanupEvsOf (handleUrlFrom env u tag) = [] := by
            rw [gateAndSend_not_found env u tag p hex] at hb
            simp only at hb
            rw [handleUrlFrom_eq env u tag _ _ hp hb]
            simp [cleanupEvsOf_append, C0, cleanupEvsOf_handleExc]
          rw [hnone]
          constructor
          · intro h
            exact absurd rfl h
          · rintro ⟨-, q, hq, hexq, -, -, -⟩
            rw [hdsnd] at hq
            have hqp : q = p := by simpa using hq.symm
            rw [hqp] at hexq
            rw [hexq] at hex
            exact absurd hex (by simp)
        | true =>
          by_cases hsz : max_size_mb * 1024 * 1024 < env.fileSize p
          · have hnone : cleanupEvsOf (handleUrlFrom env u tag) = [] := by
              cases u with
              | none =>
                rw [gateAndSend_oversize_none env tag p hex hsz] at hb
                simp only at hb
                rw [handleUrlFrom_eq env none tag _ _ hp hb]
                simp [cleanupEvsOf_append, C0, cleanupEvsOf_handleExc]
              | some uid =>
                cases hrr : env.recRes with
                | none =>
                  rw [gateAndSend_oversize_rec env tag p uid hex hsz hrr] at hb
                  simp only at hb
                  rw [handleUrlFrom_eq env (some uid) tag _ _ hp hb]
                  simp [cleanupEvsOf_append, C0, cleanupEvsOf_handleExc]
                | some m =>
                  rw [gateAndSend_oversize_recfail env tag p uid m hex hsz hrr] at hb
                  simp only at hb
                  rw [handleUrlFrom_eq env (some uid) tag _ _ hp hb]
                  simp [cleanupEvsOf_append, C0, cleanupEvsOf_handleExc]
            rw [hnone]
            constructor
            · intro h
              exact absurd rfl h
            · rintro ⟨-, q, hq, -, hszq, -, -⟩
              rw [hdsnd] at hq
              have hqp : q = p := by simpa using hq.symm
              rw [hqp] at hszq
              exact absurd hsz hszq
          · cases hs : env.sendRes with
            | error m =>
              have hnone : cleanupEvsOf (handleUrlFrom env u tag) = [] := by
                rw [gateAndSend_sendfail env u tag p m hex hsz hs] at hb
                simp only at hb
                rw [handleUrlFrom_eq env u tag _ _ hp hb]
                simp [cleanupEvsOf_append, C0, cleanupEvsOf_handleExc, cleanupEvsOf_tryRecord]
              rw [hnone]
              constructor
              · intro h
                exact absurd rfl h
              · rintro ⟨-, q, hq, -, -, hsok, -⟩
                rw [hs] at hsok
                exact absurd hsok (by simp)
            | ok uu =>
              cases uu
              cases hdel : env.deleteRes with
              | some m =>
                have hnone : cleanupEvsOf (handleUrlFrom env u tag) = [] := by
                  rw [gateAndSend_delete_fail env u tag p m hex hsz hs hdel] at hb
                  simp only at hb
                  rw [handleUrlFrom_eq env u tag _ _ hp hb]
                  simp [cleanupEvsOf_append, C0, cleanupEvsOf_handleExc, cleanupEvsOf_tryRecord]
                rw [hnone]
                constructor
                · intro h
                  exact absurd rfl h
                · rintro ⟨-, q, hq, -, -, -, hdelq⟩
                  rw [hdel] at hdelq
                  exact absurd hdelq (by simp)
              | none =>
                have hsome : cleanupEvsOf (handleUrlFrom env u tag) = cleanup env p := by
                  rw [gateAndSend_success env u tag p hex hsz hs hdel] at hb
                  simp only at hb
                  rw [handleUrlFrom_eq env u tag _ _ hp hb]
                  simp [cleanupEvsOf_append, C0, cleanupEvsOf_handleExc,
                    cleanupEvsOf_tryRecord, cleanupEvsOf_cleanup]
                rw [hsome]
                constructor
                · intro _
                  exact ⟨hp, p, by rw [hdsnd], hex, hsz, hs, hdel⟩
                · intro _
                  exact cleanup_ne_nil env p

/-! ## Claims -/

/-- C1, counterexample: a run classified to the known platform tiktok, with a
resolved user and a working recorder, whose downloaded file is 51 MiB,
appends TWO outcome records — the specific gate-failure row and the generic
row of the `DownloadError` handler — refuting "never two". -/
theorem C1_counterexample :
    envGateTwice.urlType = some "tiktok" ∧
    (recordsOf (handle_url envGateTwice)).length = 2 :=
  ⟨rfl, rfl⟩

/-- C1, amended: for a run classified to a known platform: if the processing
status reply fails, the exception escapes before the pipeline body and zero
records are appended; otherwise, with a resolved user and a working recorder,
at least one and at most two outcome records are appended, with exactly two
precisely when the downloaded file exists and is oversized, fails to send, or
is sent successfully but the processing-message delete then fails; with a
null user reference, zero records are appended. -/
theorem C1_record_count (env : Env) (tag : String)
    (hty : env.urlType = some tag) (h0 : tag ≠ "") :
    (∀ m, env.procRes = some m → recordsOf (handle_url env) = []) ∧
    (env.procRes = none → ∀ uid, env.userRes = .ok (some uid) → env.recRes = none →
      ((recordsOf (handle_url env)).length = 1 ∨ (recordsOf (handle_url env)).length = 2) ∧
      ((recordsOf (handle_url env)).length = 2 ↔ doubleRecorded env tag)) ∧
    (resolveUser env.userRes = none → recordsOf (handle_url env) = []) := by
  rw [handle_url_some env tag hty h0]
  refine ⟨?_, ?_, ?_⟩
  · intro m hpm
    rw [handleUrlFrom_escalated env _ tag m hpm]
    rfl
  · intro hp uid hu hr
    rw [hu]
    simp only [resolveUser_ok]
    exact records_user env tag uid hp hr
  · intro hn
    rw [hn]
    exact records_null_user env tag

/-- C1, witness: a fully successful run appends one or two records. -/
theorem C1_witness :
    (recordsOf (handle_url envOk)).length = 1 ∨ (recordsOf (handle_url envOk)).length = 2 :=
  ((C1_record_count envOk "tiktok" rfl (by decide)).2.1 rfl 7 rfl rfl).1

/-- C2, counterexample: a gate-failure run whose downloaded file was produced
and exists performs no cleanup action at all — the temporary file is left
behind on this failure path, refuting "removed on every terminal path". -/
theorem C2_counterexample :
    envNoCleanup.pathExists "/tmp/dl/v.mp4" = true ∧
    cleanupEvsOf (handle_url envNoCleanup) = [] ∧
    handle_url envNoCleanup =
      [Event.replyText PROCESSING_MESSAGE, .dlInvoke "tiktok",
       .checkExists "/tmp/dl/v.mp4" true, .checkSize "/tmp/dl/v.mp4" (51 * 1024 * 1024),
       .recordAppended (failRec 7 envNoCleanup.url "tiktok" (some (mbOf (51 * 1024 * 1024))) gateRecMsg),
       .recordAppended (failRec 7 envNoCleanup.url "tiktok" none tooLargeErrMsg),
       .editMsg (detailsReply tooLargeErrMsg)] :=
  ⟨rfl, rfl, rfl⟩

/-- C2, amended: for every classified run, cleanup events occur precisely
when the run reaches the cleanup block — the processing reply, download,
gate, send and processing-message delete all succeeded — so no failure path
(including a successful send whose delete then raises) performs any cleanup,
even when a file path exists; on the cleanup path the cleanup is the final
stage of the run (after delivery and recording), is always attempted, and a
failing file removal produces only a logged warning without changing anything
recorded before it. -/
theorem C2_cleanup_success_only (env : Env) (tag : String)
    (hty : env.urlType = some tag) (h0 : tag ≠ "") :
    (cleanupEvsOf (handle_url env) ≠ [] ↔ cleanupRun env tag) ∧
    (∀ p evs0, env.procRes = none → dispatch env tag = (evs0, .ok (some p)) →
      env.pathExists p = true → ¬ max_size_mb * 1024 * 1024 < env.fileSize p →
      env.sendRes = .ok () → env.deleteRes = none →
      handle_url env =
        (Event.replyText PROCESSING_MESSAGE ::
          (evs0 ++ [Event.checkExists p true, Event.checkSize p (env.fileSize p), Event.sendVideo p]
            ++ tryRecord (resolveUser env.userRes) env.recRes
                 (fun uid => okRec uid env.url tag (mbOf (env.fileSize p)))
            ++ [Event.deleteMsg])) ++ cleanup env p ∧
      cleanup env p ≠ [] ∧
      (∀ m, env.removeRes = some m → cleanup env p = [.warnCleanup m])) := by
  constructor
  · rw [handle_url_some env tag hty h0]
    exact cleanup_events_iff env (resolveUser env.userRes) tag
  · intro p evs0 hp hd hex hsz hs hdel
    refine ⟨?_, cleanup_ne_nil env p, ?_⟩
    · rw [handle_url_some env tag hty h0]
      have hb := body_eq_some env (resolveUser env.userRes) tag evs0 p hd
      rw [gateAndSend_success env (resolveUser env.userRes) tag p hex hsz hs hdel] at hb
      simp only at hb
      rw [handleUrlFrom_eq env (resolveUser env.userRes) tag _ _ hp hb]
      simp [handleExc, List.append_assoc]
    · intro m hm
      unfold cleanup
      rw [hm]

/-- C2, witness: on the concrete successful run the cleanup stage is
nonempty. -/
theorem C2_witness : cleanup envOk "/tmp/dl/v.mp4" ≠ [] :=
  (((C2_cleanup_success_only envOk "tiktok" rfl (by decide)).2 "/tmp/dl/v.mp4"
    [Event.dlInvoke "tiktok"] rfl rfl rfl (by decide) rfl rfl)).2.1

/-- C3, counterexample: a file of exactly 50 MiB is NOT rejected: the gate
admits it and the run completes as a delivered success, refuting the ≥
bound of the claim. -/
theorem C3_counterexample :
    envExactly50.fileSize "/tmp/dl/v.mp4" = max_size_mb * 1024 * 1024 ∧
    handle_url envExactly50 =
      [Event.replyText PROCESSING_MESSAGE, .dlInvoke "tiktok",
       .checkExists "/tmp/dl/v.mp4" true, .checkSize "/tmp/dl/v.mp4" (50 * 1024 * 1024),
       .sendVideo "/tmp/dl/v.mp4",
       .recordAppended (okRec 7 envExactly50.url "tiktok" (mbOf (50 * 1024 * 1024))),
       .deleteMsg, .removeFile "/tmp/dl/v.mp4", .removeDir "/tmp/dl"] :=
  ⟨rfl, rfl⟩

/-- C3, amended: the gate rejects any file STRICTLY larger than 50 MiB with
the too-large failure, the send is never reached, and (with a resolved user
and working recorder) the gate-failure record carries the actual measured
megabyte size, which is not a null. -/
theorem C3_gate_strict (env : Env) (tag p : String) (uid : Nat) (evs0 : List Event)
    (hty : env.urlType = some tag) (h0 : tag ≠ "")
    (hp : env.procRes = none)
    (hd : dispatch env tag = (evs0, .ok (some p)))
    (hex : env.pathExists p = true)
    (hsz : max_size_mb * 1024 * 1024 < env.fileSize p)
    (hu : env.userRes = .ok (some uid)) (hr : env.recRes = none) :
    handle_url env =
      Event.replyText PROCESSING_MESSAGE ::
        (evs0 ++ [Event.checkExists p true, Event.checkSize p (env.fileSize p),
          .recordAppended (failRec uid env.url tag (some (mbOf (env.fileSize p))) gateRecMsg),
          .recordAppended (failRec uid env.url tag none tooLargeErrMsg),
          .editMsg (detailsReply tooLargeErrMsg)]) ∧
    (∀ q, Event.sendVideo q ∉ handle_url env) ∧
    (failRec uid env.url tag (some (mbOf (env.fileSize p))) gateRecMsg).file_size_mb ≠ none := by
  have h1 : handle_url env =
      Event.replyText PROCESSING_MESSAGE ::
        (evs0 ++ [Event.checkExists p true, Event.checkSize p (env.fileSize p),
          .recordAppended (failRec uid env.url tag (some (mbOf (env.fileSize p))) gateRecMsg),
          .recordAppended (failRec uid env.url tag none tooLargeErrMsg),
          .editMsg (detailsReply tooLargeErrMsg)]) := by
    rw [handle_url_some env tag hty h0, hu]
    simp only [resolveUser_ok]
    have hb := body_eq_some env (some uid) tag evs0 p hd
    rw [gateAndSend_oversize_rec env tag p uid hex hsz hr] at hb
    simp only at hb
    rw [handleUrlFrom_eq env (some uid) tag _ _ hp hb]
    simp [handleExc, tryRecord, hr]
  have hnev : ∀ q, Event.sendVideo q ∉ evs0 := by
    intro q
    have h := not_send_dispatch env tag q
    rwa [hd] at h
  refine ⟨h1, ?_, by simp [failRec]⟩
  intro q
  rw [h1]
  simp [hnev q]

/-- C3, witness: the amended gate theorem applied to the concrete 51 MiB
run — the send is never reached. -/
theorem C3_witness : Event.sendVideo "/x" ∉ handle_url envGateTwice :=
  (C3_gate_strict envGateTwice "tiktok" "/tmp/dl/v.mp4" 7 [Event.dlInvoke "tiktok"]
    rfl (by decide) rfl rfl rfl (by decide) rfl rfl).2.1 "/x"

/-- C4, code bug: the gate-failure `record_download` call (bot.py lines
122-131) is the one recording site not wrapped in its own `try/except`.
When the recorder raises there, the run is diverted to the generic handler:
the user sees the fixed apology instead of the classified too-large message
that the identical run with a working recorder produces — so a persistence
failure does change the user-facing reply. -/
theorem C4_unprotected_gate_record :
    handle_url envRecorderRaises =
      [Event.replyText PROCESSING_MESSAGE, .dlInvoke "tiktok",
       .checkExists "/tmp/dl/v.mp4" true, .checkSize "/tmp/dl/v.mp4" (51 * 1024 * 1024),
       .recordError "db write failed",
       .editMsg unexpectedReply] ∧
    handle_url envRecorderOk =
      [Event.replyText PROCESSING_MESSAGE, .dlInvoke "tiktok",
       .checkExists "/tmp/dl/v.mp4" true, .checkSize "/tmp/dl/v.mp4" (51 * 1024 * 1024),
       .recordAppended (failRec 7 envRecorderOk.url "tiktok" (some (mbOf (51 * 1024 * 1024))) gateRecMsg),
       .recordAppended (failRec 7 envRecorderOk.url "tiktok" none tooLargeErrMsg),
       .editMsg (detailsReply tooLargeErrMsg)] ∧
    unexpectedReply ≠ detailsReply tooLargeErrMsg :=
  ⟨rfl, rfl, by decide⟩

/-- C5, counterexample: the error string "video too large" contains
"too large" yet is mapped to the generic fallback, not the too-large
template — the code's pattern is "is too large", refuting the claim's
example. -/
theorem C5_counterexample :
    containsSub (strLower "video too large") "too large" = true ∧
    user_friendly_message "video too large" = ERROR_MESSAGE ∧
    ERROR_MESSAGE ≠ tooLargeMsg :=
  ⟨rfl, rfl, by decide⟩

/-- C5, amended: the failure classifier is deterministic and total — it
returns exactly one of the six fixed templates, checks its case-insensitive
patterns in a fixed order with the first match winning, and falls back to the
generic template when no pattern matches; an input containing "is private"
yields the private-account template and an input containing "is too large"
(the code's actual pattern, not "too large") but not "is private" yields the
too-large template. -/
theorem C5_classifier (s : String) :
    (user_friendly_message s = privateMsg ∨ user_friendly_message s = tooLargeMsg ∨
     user_friendly_message s = noVideoMsg ∨ user_friendly_message s = noInfoMsg ∨
     user_friendly_message s = noStreamMsg ∨ user_friendly_message s = ERROR_MESSAGE) ∧
    (containsSub (strLower s) "is private" = true → user_friendly_message s = privateMsg) ∧
    (containsSub (strLower s) "is private" = false →
      containsSub (strLower s) "is too large" = true →
      user_friendly_message s = tooLargeMsg) ∧
    (containsSub (strLower s) "is private" = false →
      containsSub (strLower s) "is too large" = false →
      containsSub (strLower s) "does not contain a video" = false →
      containsSub (strLower s) "could not load video information" = false →
      containsSub (strLower s) "no suitable video streams" = false →
      user_friendly_message s = ERROR_MESSAGE) := by
  unfold user_friendly_message
  split_ifs with h1 h2 h3 h4 h5 <;> simp_all

/-- C5, witness: the classifier evaluated on three concrete inputs through
the amended theorem. -/
theorem C5_witness :
    user_friendly_message "the account is private" = privateMsg ∧
    user_friendly_message "file is too large" = tooLargeMsg ∧
    user_friendly_message "mysterious breakage" = ERROR_MESSAGE :=
  ⟨(C5_classifier "the account is private").2.1 rfl,
   (C5_classifier "file is too large").2.2.1 rfl rfl,
   (C5_classifier "mysterious breakage").2.2.2 rfl rfl rfl rfl rfl⟩

/-- C6, counterexample: an unexpected-failure run (here: the recorder raising
"db write failed" at the unprotected gate site) produces a user-facing
failure reply that is the fixed apology and does not contain the raw failure
detail, refuting "every failure kind appends the raw detail". -/
theorem C6_counterexample :
    handle_url envUnexpected =
      [Event.replyText PROCESSING_MESSAGE, .dlInvoke "tiktok",
       .checkExists "/tmp/dl/v.mp4" true, .checkSize "/tmp/dl/v.mp4" (51 * 1024 * 1024),
       .recordError "db write failed",
       .editMsg unexpectedReply] ∧
    containsSub unexpectedReply "db write failed" = false :=
  ⟨rfl, rfl⟩

/-- C6, amended: replies of the `DownloadError` path (download, gate, and
send failures) append the raw failure detail after the classified friendly
message; the unexpected-failure reply is the fixed generic text without the
detail. -/
theorem C6_failure_reply (env : Env) (u : Option Nat) (tag em : String)
    (evs : List Event) (hp : env.procRes = none) :
    (body env u tag = (evs, some (.dl em)) →
      handleUrlFrom env u tag =
        Event.replyText PROCESSING_MESSAGE ::
          (evs ++ tryRecord u env.recRes (fun uid => failRec uid env.url tag none em)
            ++ [.editMsg (user_friendly_message em ++ "\n\nDetails: " ++ em)])) ∧
    (body env u tag = (evs, some (.other em)) →
      handleUrlFrom env u tag =
        Event.replyText PROCESSING_MESSAGE ::
          (evs ++ tryRecord u env.recRes
                    (fun uid => failRec uid env.url tag none (unexpectedRecMsg em))
            ++ [.editMsg unexpectedReply])) := by
  constructor <;> intro hb <;> rw [handleUrlFrom_eq env u tag _ _ hp hb] <;>
    simp [handleExc, detailsReply, List.append_assoc]

/-- C6, witness: the amended theorem applied to a concrete private-account
download failure: the reply is the private template plus the raw detail. -/
theorem C6_witness :
    handleUrlFrom envPrivate (some 7) "tiktok" =
      Event.replyText PROCESSING_MESSAGE ::
        ([Event.dlInvoke "tiktok"]
          ++ tryRecord (some 7) envPrivate.recRes
               (fun uid => failRec uid envPrivate.url "tiktok" none "This account is private")
          ++ [.editMsg (user_friendly_message "This account is private"
                ++ "\n\nDetails: " ++ "This account is private")]) :=
  (C6_failure_reply envPrivate (some 7) "tiktok" "This account is private"
    [Event.dlInvoke "tiktok"] rfl).1 rfl

/-- C7: the delivery gate checks existence and then size strictly before any
relay attempt — a send event in a trace implies the file exists and fits
under the 50 MiB ceiling, and both check events occur earlier in the trace
than the send. -/
theorem C7_gate_before_send (env : Env) (p : String)
    (h : Event.sendVideo p ∈ handle_url env) :
    env.pathExists p = true ∧
    env.fileSize p ≤ max_size_mb * 1024 * 1024 ∧
    ∃ l₁ l₂, handle_url env = l₁ ++ Event.sendVideo p :: l₂ ∧
      Event.checkExists p true ∈ l₁ ∧ Event.checkSize p (env.fileSize p) ∈ l₁ := by
  cases hty : env.urlType with
  | none =>
    have hrej : handle_url env = [.replyText INVALID_URL_MESSAGE] := by
      unfold handle_url
      rw [hty]
    rw [hrej] at h
    simp at h
  | some tag =>
    by_cases h0 : tag = ""
    · have hrej : handle_url env = [.replyText INVALID_URL_MESSAGE] := by
        unfold handle_url
        rw [hty]
        exact if_pos h0
      rw [hrej] at h
      simp at h
    · rw [handle_url_some env tag hty h0] at h ⊢
      cases hpc : env.procRes with
      | some m =>
        rw [handleUrlFrom_escalated env _ tag m hpc] at h
        simp at h
      | none =>
        rcases hd : dispatch env tag with ⟨evs0, r⟩
        have hnev : ∀ q, Event.sendVideo q ∉ evs0 := by
          intro q
          have hq := not_send_dispatch env tag q
          rwa [hd] at hq
        cases r with
        | error e =>
          rw [handleUrlFrom_eq env _ tag evs0 (some e) hpc
            (body_eq_err env _ tag evs0 e hd)] at h
          simp [hnev p, not_send_handleExc] at h
        | ok vp =>
          cases vp with
          | none =>
            rw [handleUrlFrom_eq env _ tag evs0 _ hpc
              (body_eq_none env _ tag evs0 hd)] at h
            simp [hnev p, not_send_handleExc] at h
          | some q =>
            have hb := body_eq_some env (resolveUser env.userRes) tag evs0 q hd
            rw [handleUrlFrom_eq env _ tag _ _ hpc hb] at h
            simp only [List.mem_cons, List.mem_append] at h
            have hgate : Event.sendVideo p ∈ (gateAndSend env (resolveUser env.userRes) tag q).1 := by
              rcases h with h | h | h
              · exact absurd h (by simp)
              · rcases h with h | h
                · exact absurd h (hnev p)
                · exact h
              · exact absurd h (not_send_handleExc env _ tag p _)
            obtain ⟨hpq, hex, hsz, hs⟩ := send_in_gate env _ tag q p hgate
            subst hpq
            refine ⟨hex, Nat.not_lt.mp hsz, ?_⟩
            have hbs := body_eq_some env (resolveUser env.userRes) tag evs0 p hd
            cases hdel : env.deleteRes with
            | none =>
              rw [gateAndSend_success env (resolveUser env.userRes) tag p hex hsz hs hdel] at hbs
              simp only at hbs
              rw [handleUrlFrom_eq env _ tag _ _ hpc hbs]
              refine ⟨Event.replyText PROCESSING_MESSAGE ::
                  (evs0 ++ [Event.checkExists p true, Event.checkSize p (env.fileSize p)]),
                tryRecord (resolveUser env.userRes) env.recRes
                    (fun uid => okRec uid env.url tag (mbOf (env.fileSize p)))
                  ++ [Event.deleteMsg] ++ cleanup env p
                  ++ handleExc env (resolveUser env.userRes) tag none,
                ?_, by simp, by simp⟩
              simp [List.append_assoc]
            | some m =>
              rw [gateAndSend_delete_fail env (resolveUser env.userRes) tag p m hex hsz hs hdel] at hbs
              simp only at hbs
              rw [handleUrlFrom_eq env _ tag _ _ hpc hbs]
              refine ⟨Event.replyText PROCESSING_MESSAGE ::
                  (evs0 ++ [Event.checkExists p true, Event.checkSize p (env.fileSize p)]),
                tryRecord (resolveUser env.userRes) env.recRes
                    (fun uid => okRec uid env.url tag (mbOf (env.fileSize p)))
                  ++ handleExc env (resolveUser env.userRes) tag (some (.other m)),
                ?_, by simp, by simp⟩
              simp [List.append_assoc]

/-- C7, witness: the theorem applied to the concrete successful run. -/
theorem C7_witness :
    envOk.pathExists "/tmp/dl/v.mp4" = true ∧
    envOk.fileSize "/tmp/dl/v.mp4" ≤ max_size_mb * 1024 * 1024 ∧
    ∃ l₁ l₂, handle_url envOk = l₁ ++ Event.sendVideo "/tmp/dl/v.mp4" :: l₂ ∧
      Event.checkExists "/tmp/dl/v.mp4" true ∈ l₁ ∧
      Event.checkSize "/tmp/dl/v.mp4" (envOk.fileSize "/tmp/dl/v.mp4") ∈ l₁ :=
  C7_gate_before_send envOk "/tmp/dl/v.mp4" (by decide)

/-- C8: when classification returns `None`, the run replies with the fixed
rejection message and terminates: no downloader is invoked and no outcome
record is appended. -/
theorem C8_unrecognized (env : Env) (h : env.urlType = none) :
    handle_url env = [.replyText INVALID_URL_MESSAGE] ∧
    recordsOf (handle_url env) = [] ∧
    ∀ tag, Event.dlInvoke tag ∉ handle_url env := by
  have he : handle_url env = [.replyText INVALID_URL_MESSAGE] := by
    unfold handle_url
    rw [h]
  exact ⟨he, by rw [he]; rfl, fun tag => by rw [he]; simp⟩

/-- C8, witness: the concrete unrecognized run. -/
theorem C8_witness : handle_url envNoUrl = [.replyText INVALID_URL_MESSAGE] :=
  (C8_unrecognized envNoUrl rfl).1

/-- C9: when user-profile resolution fails — the lookup raises or returns no
profile — the run does not fail: the user reference degrades to null, the
run continues exactly as the null-user run, and with a working download,
gate and send the video is still delivered. -/
theorem C9_user_lookup_best_effort (env : Env)
    (h : (∃ m, env.userRes = .error m) ∨ env.userRes = .ok none) :
    resolveUser env.userRes = none ∧
    (∀ tag, env.urlType = some tag → tag ≠ "" →
      handle_url env = handleUrlFrom env none tag) ∧
    (∀ tag p evs0, env.urlType = some tag → tag ≠ "" → env.procRes = none →
      dispatch env tag = (evs0, .ok (some p)) → env.pathExists p = true →
      ¬ max_size_mb * 1024 * 1024 < env.fileSize p → env.sendRes = .ok () →
      Event.sendVideo p ∈ handle_url env) := by
  have hnull : resolveUser env.userRes = none := by
    rcases h with ⟨m, hm⟩ | hm <;> rw [hm] <;> rfl
  refine ⟨hnull, ?_, ?_⟩
  · intro tag hty h0
    rw [handle_url_some env tag hty h0, hnull]
  · intro tag p evs0 hty h0 hp hd hex hsz hs
    rw [handle_url_some env tag hty h0, hnull]
    have hb := body_eq_some env none tag evs0 p hd
    cases hdel : env.deleteRes with
    | none =>
      rw [gateAndSend_success env none tag p hex hsz hs hdel] at hb
      simp only at hb
      rw [handleUrlFrom_eq env none tag _ _ hp hb]
      simp
    | some m =>
      rw [gateAndSend_delete_fail env none tag p m hex hsz hs hdel] at hb
      simp only at hb
      rw [handleUrlFrom_eq env none tag _ _ hp hb]
      simp

/-- C9, witness: a run whose user lookup raises still delivers the video. -/
theorem C9_witness : Event.sendVideo "/tmp/dl/v.mp4" ∈ handle_url envUserFail :=
  (C9_user_lookup_best_effort envUserFail (Or.inl ⟨"db down", rfl⟩)).2.2
    "tiktok" "/tmp/dl/v.mp4" [Event.dlInvoke "tiktok"] rfl (by decide) rfl rfl rfl (by decide) rfl

/-- C10: a classification tag outside the five dispatched platforms invokes
no downloader; the dispatch leaves the video path unset and the run ends as
a handled, typed download failure: one failed record with the
"Couldn't download video from ..." detail and the classified reply — not an
unhandled exception. -/
theorem C10_unknown_tag (env : Env) (tag : String) (uid : Nat)
    (hty : env.urlType = some tag) (h0 : tag ≠ "")
    (hy : tag ≠ "youtube") (hi : tag ≠ "instagram") (ht : tag ≠ "tiktok")
    (hw : tag ≠ "twitter") (hf : tag ≠ "facebook")
    (hp : env.procRes = none)
    (hu : env.userRes = .ok (some uid)) (hr : env.recRes = none) :
    handle_url env =
      [Event.replyText PROCESSING_MESSAGE,
       .recordAppended (failRec uid env.url tag none (noDlMsg tag env.url)),
       .editMsg (detailsReply (noDlMsg tag env.url))] ∧
    (∀ t, Event.dlInvoke t ∉ handle_url env) := by
  have hd := dispatch_unknown env tag hy hi ht hw hf
  have h1 : handle_url env =
      [Event.replyText PROCESSING_MESSAGE,
       .recordAppended (failRec uid env.url tag none (noDlMsg tag env.url)),
       .editMsg (detailsReply (noDlMsg tag env.url))] := by
    rw [handle_url_some env tag hty h0, hu]
    simp only [resolveUser_ok]
    rw [handleUrlFrom_eq env (some uid) tag [] _ hp (body_eq_none env (some uid) tag [] hd)]
    simp [handleExc, tryRecord, hr]
  exact ⟨h1, fun t => by rw [h1]; simp⟩

/-- C10, witness: the concrete "vimeo" run. -/
theorem C10_witness :
    handle_url envVimeo =
      [Event.replyText PROCESSING_MESSAGE,
       .recordAppended (failRec 7 envVimeo.url "vimeo" none (noDlMsg "vimeo" envVimeo.url)),
       .editMsg (detailsReply (noDlMsg "vimeo" envVimeo.url))] :=
  (C10_unknown_tag envVimeo "vimeo" 7 rfl (by decide) (by decide) (by decide) (by decide)
    (by decide) (by decide) rfl rfl rfl).1

end MediaSaverBot
